import Mathlib

/-!
Verification of the security middleware layer of the `desenvolvimento_api`
repository: credential verification, token lifecycle, access-control
decisions and per-client rate limiting, shallowly embedded from the Python
sources (`auth.py`, `crud.py`, `middleware.py`, `main.py`, `models.py`,
`config.py`).

Times are modelled in integer seconds for the token layer (the `jose`
library compares integer epoch seconds) and in rational seconds for the
rate limiter (Python `time.time()` instants).
-/

set_option maxRecDepth 16384

namespace SecureApi

/-! ## Data model (`models.py`) -/

/-- Row of the `users` table (`models.User`). -/
structure User where
  id : Int
  username : String
  email : String
  hashed_password : String
  is_active : Bool
  user_type : String
deriving Repr, DecidableEq

/-- Row of the `data_items` table (`models.DataItem`). -/
structure DataItem where
  id : Int
  title : String
  content : String
  user_id : Int
deriving Repr, DecidableEq

/-- The relational store consumed by the auth layer: the two tables. -/
structure Db where
  users : List User
  items : List DataItem
deriving Repr, DecidableEq

/-- `crud.get_user_by_username`: first row whose `username` column equals
the argument (SQLite string equality is case-sensitive). -/
def get_user_by_username (db : Db) (username : String) : Option User :=
  db.users.find? (fun u => u.username == username)

/-- `crud.get_data_item`: first row of `data_items` with the given id. -/
def get_data_item (db : Db) (item_id : Int) : Option DataItem :=
  db.items.find? (fun it => it.id == item_id)

/-- `crud.can_access_data_item` (crud.py lines 107-115): admins always
pass; otherwise the item is looked up (missing item gives `false`) and the
owner column is compared with the caller's id. -/
def can_access_data_item (db : Db) (item_id : Int) (user_id : Int) (user_type : String) : Bool :=
  if user_type == "admin" then
    true
  else
    match get_data_item db item_id with
    | none => false
    | some it => it.user_id == user_id

/-! ## Configuration (`config.py`) -/

/-- `config.Settings`: the security-relevant configuration fields. -/
structure Settings where
  SECRET_KEY : String
  ALGORITHM : String
  ACCESS_TOKEN_EXPIRE_MINUTES : Int
deriving Repr, DecidableEq

/-- The settings produced with no overriding environment variables. -/
def defaultSettings : Settings :=
  { SECRET_KEY := "sua-chave-secreta-aqui-mude-em-producao"
    ALGORITHM := "HS256"
    ACCESS_TOKEN_EXPIRE_MINUTES := 30 }

/-! ## Token layer (`auth.py` and the `jose` JWT primitives)

A JWT is modelled as its decoded form: a claims payload, the algorithm
named in its header, and a signature.  The HMAC is modelled by an
executable digest of the secret, the algorithm and the serialized payload;
verification only ever compares signatures for equality, so any executable
function of those inputs is a faithful model.  Token input strings that do
not parse as a JWT at all are the `garbage` constructor. -/

/-- Executable digest used to model hashing primitives. -/
def strCode (s : String) : Nat :=
  s.data.foldl (fun a c => a * 131 + c.toNat) 7

/-- Serialization of an optional claim value. -/
def optStr (f : α → String) : Option α → String
  | none => "none"
  | some a => "some " ++ f a

/-- Claims payload of a JWT as built by this application: the three claims
of the `data` dict plus the `exp` added by `create_access_token`.  `exp`
is in integer epoch seconds, as `jose` encodes and compares it. -/
structure Payload where
  sub : Option String
  user_id : Option Int
  user_type : Option String
  exp : Int
deriving Repr, DecidableEq

/-- Model of the HMAC signature over a payload. -/
def hmacSig (secret : String) (alg : String) (p : Payload) : Nat :=
  strCode (secret ++ "#" ++ alg ++ "#" ++ optStr id p.sub ++ "#" ++ optStr toString p.user_id
    ++ "#" ++ optStr id p.user_type ++ "#" ++ toString p.exp)

/-- A structurally well-formed JWT string, in decoded form. -/
structure Jwt where
  payload : Payload
  alg : String
  sig : Nat
deriving Repr, DecidableEq

/-- The space of strings handed to `verify_token`: either a well-formed
JWT or anything else (which `jose` fails to parse). -/
inductive TokenString where
  | jwt (t : Jwt)
  | garbage (s : String)
deriving Repr, DecidableEq

/-- `jose.jwt.encode`: sign the payload with the secret and algorithm. -/
def jwtEncode (secret : String) (alg : String) (p : Payload) : Jwt :=
  ⟨p, alg, hmacSig secret alg p⟩

/-- `jose.jwt.decode(token, secret, algorithms)` evaluated at instant
`now`: `none` models a raised `JWTError` (signature mismatch, algorithm
not in the allowed list, or `ExpiredSignatureError` when `exp < now`);
`jose` accepts a token at `now = exp` and rejects strictly after. -/
def jwtDecode (secret : String) (algorithms : List String) (now : Int) (t : Jwt) : Option Payload :=
  if t.alg ∈ algorithms ∧ t.sig = hmacSig secret t.alg t.payload then
    if t.payload.exp < now then none else some t.payload
  else none

/-- `auth.TokenData`. -/
structure TokenData where
  username : Option String
  user_id : Option Int
  user_type : Option String
deriving Repr, DecidableEq

/-- The `data` dict passed to `create_access_token` by `login`. -/
structure TokenClaimsIn where
  sub : Option String
  user_id : Option Int
  user_type : Option String
deriving Repr, DecidableEq

/-- `auth.create_access_token` (auth.py lines 28-36) at instant `now`.
`expires_delta` is in seconds; `none` models calling without the argument
(Python default `timedelta(minutes=15)`), and a passed `timedelta(0)` is
falsy in Python so it also falls back to 15 minutes. -/
def create_access_token (st : Settings) (now : Int) (data : TokenClaimsIn)
    (expires_delta : Option Int) : Jwt :=
  let expire : Int :=
    match expires_delta with
    | some d => if d ≠ 0 then now + d else now + 15 * 60
    | none => now + 15 * 60
  jwtEncode st.SECRET_KEY st.ALGORITHM ⟨data.sub, data.user_id, data.user_type, expire⟩

/-- `auth.verify_token` (auth.py lines 38-50) at instant `now`: any
`JWTError` from decoding is caught and mapped to `None`; a payload with no
`sub` claim is also `None`; otherwise the claims are repackaged. -/
def verify_token (st : Settings) (now : Int) (token : TokenString) : Option TokenData :=
  match token with
  | .garbage _ => none
  | .jwt t =>
    match jwtDecode st.SECRET_KEY [st.ALGORITHM] now t with
    | none => none
    | some payload =>
      match payload.sub with
      | none => none
      | some username => some ⟨some username, payload.user_id, payload.user_type⟩

/-! ## Credential layer (`auth.py` and the `passlib` bcrypt context)

`passlib.CryptContext(schemes=["bcrypt"])` identifies the scheme of a
stored hash from its `$2b$` tag; a string no configured scheme recognizes
makes `verify` raise `UnknownHashError` (a `ValueError`).  bcrypt itself
is modelled as an executable salted digest with the salt embedded in the
hash string; `hash` draws a fresh salt per call, which is passed
explicitly here, and `verify` is the compatible re-derivation check. -/

/-- Salted one-way digest of a password (model of the bcrypt KDF). -/
def bcryptDigest (salt : Nat) (password : String) : Nat :=
  strCode (toString salt ++ "|" ++ password)

/-- A bcrypt hash string: scheme tag, cost, embedded salt, digest. -/
def bcryptHash (salt : Nat) (password : String) : String :=
  "$2b$12$" ++ toString salt ++ "$" ++ toString (bcryptDigest salt password)

/-- passlib hash identification: a stored string is recognized by the
configured bcrypt scheme iff it carries the `$2b$` tag. -/
def bcryptRecognize (hashed : String) : Bool :=
  hashed.data.take 4 == ['$', '2', 'b', '$']

/-- Size of the salt space of the model (bcrypt salts live in a finite
space; its exact size is irrelevant to every claim). -/
abbrev saltCount : Nat := 16

/-- bcrypt re-derivation check: the stored string matches the plaintext
iff it is the bcrypt hash of that plaintext under some salt. -/
def bcryptCheck (plain hashed : String) : Bool :=
  decide (∃ salt : Fin saltCount, hashed = bcryptHash salt.val plain)

/-- `CryptContext.verify`: `.error` models the raised `UnknownHashError`
on a hash string no configured scheme recognizes. -/
def pwd_context_verify (plain hashed : String) : Except String Bool :=
  if bcryptRecognize hashed then .ok (bcryptCheck plain hashed)
  else .error "UnknownHashError"

/-- `auth.verify_password` (auth.py lines 22-23): a direct delegation to
the passlib context, exceptions included. -/
def verify_password (plain hashed : String) : Except String Bool :=
  pwd_context_verify plain hashed

/-- `auth.get_password_hash` (auth.py lines 25-26); the salt bcrypt draws
for this call is passed explicitly. -/
def get_password_hash (salt : Fin saltCount) (password : String) : String :=
  bcryptHash salt.val password

/-- `auth.authenticate_user` (auth.py lines 52-58): `.error` propagates an
exception raised by `verify_password`; `.ok none` is the `None` returned
on unknown username or wrong password. -/
def authenticate_user (db : Db) (username password : String) : Except String (Option User) :=
  match get_user_by_username db username with
  | none => .ok none
  | some u =>
    match verify_password password u.hashed_password with
    | .error e => .error e
    | .ok b => if b then .ok (some u) else .ok none

/-! ## Request dependencies and handlers (`auth.py`, `main.py`) -/

/-- Outcome of a handler or dependency: an `HTTPException` with its
status code and detail, or an uncaught Python exception. -/
inductive PyError where
  | httpException (statusCode : Int) (detail : String)
  | raised (msg : String)
deriving Repr, DecidableEq

deriving instance DecidableEq for Except

/-- `auth.get_current_user` (auth.py lines 60-69): 401 when the token
does not verify and 401 when the decoded username matches no row.  A
decoded `username` of `None` also reaches the row filter and matches no
row (the column is non-nullable), hence 401 as well. -/
def get_current_user (st : Settings) (db : Db) (now : Int) (credentials : TokenString) :
    Except PyError User :=
  match verify_token st now credentials with
  | none => .error (.httpException 401 "Could not validate credentials")
  | some token_data =>
    match token_data.username with
    | none => .error (.httpException 401 "Could not validate credentials")
    | some uname =>
      match get_user_by_username db uname with
      | none => .error (.httpException 401 "Could not validate credentials")
      | some user => .ok user

/-- `auth.get_current_active_user` (auth.py lines 71-75): an inactive
resolved user is rejected with status 400. -/
def get_current_active_user (st : Settings) (db : Db) (now : Int) (credentials : TokenString) :
    Except PyError User :=
  match get_current_user st db now credentials with
  | .error e => .error e
  | .ok u => if !u.is_active then .error (.httpException 400 "Inactive user") else .ok u

/-- `auth.require_admin` (auth.py lines 77-83). -/
def require_admin (st : Settings) (db : Db) (now : Int) (credentials : TokenString) :
    Except PyError User :=
  match get_current_active_user st db now credentials with
  | .error e => .error e
  | .ok u =>
    if u.user_type ≠ "admin" then
      .error (.httpException 403 "Permissão negada, acesso restrito a administradores")
    else .ok u

/-- The `Token` response model of a successful login. -/
structure LoginResponse where
  access_token : Jwt
  token_type : String
  expires_in : Int
deriving Repr, DecidableEq

/-- `main.login` (main.py lines 77-109) at instant `now`: authenticates,
rejects unknown credentials with 401 and an inactive user with 400, then
issues a token passing NO `expires_delta` argument while reporting
`ACCESS_TOKEN_EXPIRE_MINUTES * 60` as `expires_in`. -/
def login (st : Settings) (db : Db) (now : Int) (username password : String) :
    Except PyError LoginResponse :=
  match authenticate_user db username password with
  | .error e => .error (.raised e)
  | .ok none => .error (.httpException 401 "Username ou senha incorretos")
  | .ok (some user) =>
    if !user.is_active then .error (.httpException 400 "Usuário inativo")
    else
      .ok ⟨create_access_token st now ⟨some user.username, some user.id, some user.user_type⟩ none,
        "bearer", st.ACCESS_TOKEN_EXPIRE_MINUTES * 60⟩

/-! ## Rate limiter (`middleware.py`)

Request instants are rationals, modelling `time.time()` floats.  The
middleware keeps one timestamp list per client ip; everything below is
the window of a single fixed client. -/

/-- Prune step of `RateLimitMiddleware.dispatch` (middleware.py lines
23-26): keep the instants strictly less than 60 seconds old at `now`. -/
def pruneWindow (now : ℚ) (ts : List ℚ) : List ℚ :=
  ts.filter (fun t => decide (now - t < 60))

/-- The rate decision of one `dispatch` call (middleware.py lines 19-37):
store the pruned list; reject without appending when at least `limit`
entries remain; otherwise append `now` and accept.  Returns the decision
and the stored window after the call. -/
def rateDispatch (limit : Nat) (now : ℚ) (ts : List ℚ) : Bool × List ℚ :=
  if limit ≤ (pruneWindow now ts).length then (false, pruneWindow now ts)
  else (true, pruneWindow now ts ++ [now])

/-- A sequence of dispatch calls from one client, left to right:
the decisions and the final stored window. -/
def runRequests (limit : Nat) (times : List ℚ) (ts : List ℚ) : List Bool × List ℚ :=
  match times with
  | [] => ([], ts)
  | t :: rest =>
    ((rateDispatch limit t ts).1 :: (runRequests limit rest (rateDispatch limit t ts).2).1,
      (runRequests limit rest (rateDispatch limit t ts).2).2)

/-- The per-request pipeline of a protected route as wired in `main.py`:
the rate limiter wrapping the authentication dependency.  `nowT` is the
integer-second reading of the same instant as `nowR`.  Returns the
response status code and the rate window after the request. -/
def pipelineStep (st : Settings) (limit : Nat) (db : Db) (nowR : ℚ) (nowT : Int)
    (ts : List ℚ) (cred : TokenString) : Int × List ℚ :=
  if !(rateDispatch limit nowR ts).1 then (429, (rateDispatch limit nowR ts).2)
  else
    match get_current_active_user st db nowT cred with
    | .error (.httpException code _) => (code, (rateDispatch limit nowR ts).2)
    | .error (.raised _) => (500, (rateDispatch limit nowR ts).2)
    | .ok _ => (200, (rateDispatch limit nowR ts).2)

/-! ## Registration (`models.py` validators, `crud.create_user`,
`main.register`) -/

/-- Python `str.lower` applied to a username; the username character-set
validator guarantees ASCII, on which `str.lower` agrees with the
basic-latin `Char.toLower`. -/
def pyLower (s : String) : String :=
  String.mk (s.data.map Char.toLower)

/-- The `^[a-zA-Z0-9_]+$` regex of `UserBase.validate_username`. -/
def usernameChars (s : String) : Bool :=
  !s.data.isEmpty && s.data.all (fun c => c.isAlphanum || c == '_')

/-- Loose model of pydantic `EmailStr`; no claim depends on email
validation beyond acceptance of ordinary addresses. -/
def emailOk (s : String) : Bool :=
  s.data.contains '@'

/-- `UserBase.validate_username` (models.py lines 95-100): character-set
check, then lowercase. -/
def validate_username (v : String) : Except String String :=
  if usernameChars v then .ok (pyLower v)
  else .error "Username deve conter apenas letras, números e underscore"

/-- `UserBase.validate_user_type` (models.py lines 102-108). -/
def validate_user_type (v : String) : Except String String :=
  if v = "user" ∨ v = "admin" ∨ v = "moderator" then .ok v
  else .error "Tipo de usuário inválido"

/-- `UserCreate.validate_password` (models.py lines 117-128). -/
def validate_password (v : String) : Except String String :=
  if v.length < 8 then .error "Senha deve ter pelo menos 8 caracteres"
  else if !v.data.any Char.isUpper then .error "Senha deve conter pelo menos uma letra maiúscula"
  else if !v.data.any Char.isLower then .error "Senha deve conter pelo menos uma letra minúscula"
  else if !v.data.any Char.isDigit then .error "Senha deve conter pelo menos um número"
  else .ok v

/-- The raw JSON body of a `/register` request, before validation. -/
structure RawUserCreate where
  username : String
  email : String
  user_type : String
  password : String
deriving Repr, DecidableEq

/-- The validated `UserCreate` pydantic model. -/
structure UserCreate where
  username : String
  email : String
  user_type : String
  password : String
deriving Repr, DecidableEq

/-- Pydantic parsing of `UserCreate`: the `Field` length bounds plus the
custom validators; the username held by the parsed model is already
lowercased. -/
def parseUserCreate (raw : RawUserCreate) : Except String UserCreate :=
  if raw.username.length < 3 ∨ 50 < raw.username.length then
    .error "username fora dos limites de tamanho"
  else if !emailOk raw.email then .error "email inválido"
  else if raw.password.length < 8 ∨ 128 < raw.password.length then
    .error "senha fora dos limites de tamanho"
  else
    match validate_username raw.username, validate_user_type raw.user_type,
        validate_password raw.password with
    | .ok un, .ok ut, .ok pw => .ok ⟨un, raw.email, ut, pw⟩
    | .error e, _, _ => .error e
    | _, .error e, _ => .error e
    | _, _, .error e => .error e

/-- The row `crud.create_user` inserts: fresh autoincrement id, hashed
password, `is_active` defaulting to true. -/
def newUserRow (newId : Int) (salt : Fin saltCount) (user : UserCreate) : User :=
  ⟨newId, user.username, user.email, get_password_hash salt user.password, true, user.user_type⟩

/-- `crud.create_user` (crud.py lines 8-23): hash the password and
insert; an `IntegrityError` (unique username or email violated) becomes a
400.  The autoincrement id and the bcrypt salt are explicit. -/
def create_user (db : Db) (newId : Int) (salt : Fin saltCount) (user : UserCreate) :
    Except PyError (Db × User) :=
  if db.users.any (fun w => w.username == user.username || w.email == user.email) then
    .error (.httpException 400 "Usuário já existe")
  else
    .ok (⟨db.users ++ [newUserRow newId salt user], db.items⟩, newUserRow newId salt user)

/-- `main.register` (main.py lines 111-130): validation failure is a 422;
a duplicate username — looked up with the already-lowercased model
username — is a 400; otherwise the user is inserted. -/
def register (db : Db) (newId : Int) (salt : Fin saltCount) (raw : RawUserCreate) :
    Except PyError (Db × User) :=
  match parseUserCreate raw with
  | .error e => .error (.httpException 422 e)
  | .ok user =>
    match get_user_by_username db user.username with
    | some _ => .error (.httpException 400 "Username já registrado")
    | none => create_user db newId salt user

/-- Store and expected response used to instantiate the login theorems. -/
def exLoginDb : Db :=
  ⟨[⟨1, "dave", "dave@example.com", get_password_hash 0 "Password1", true, "user"⟩], []⟩

/-- Response `main.login` produces on `exLoginDb` at instant 1000. -/
def exLoginResp : LoginResponse :=
  ⟨create_access_token defaultSettings 1000 ⟨some "dave", some 1, some "user"⟩ none,
    "bearer", 1800⟩

/-! ## Theorems -/

/-- Inversion of the decode model: decoding succeeds exactly when the
algorithm is allowed, the signature re-derives, and the token is not past
its expiry. -/
theorem jwtDecode_eq_some (secret : String) (algs : List String) (now : Int)
    (t : Jwt) (p : Payload) :
    jwtDecode secret algs now t = some p ↔
      t.alg ∈ algs ∧ t.sig = hmacSig secret t.alg t.payload
        ∧ ¬ t.payload.exp < now ∧ p = t.payload := by
  unfold jwtDecode
  split_ifs with h1 h2
  · simp only [reduceCtorEq, false_iff]
    intro hc
    exact absurd h2 hc.2.2.1
  · constructor
    · intro hp
      exact ⟨h1.1, h1.2, h2, (Option.some_inj.mp hp).symm⟩
    · intro hc
      exact congrArg some hc.2.2.2.symm
  · simp only [reduceCtorEq, false_iff]
    intro hc
    exact h1 ⟨hc.1, hc.2.1⟩

/-- C1: the access decision grants every admin unconditionally, and for a
non-admin principal and an existing resource it grants iff the resource's
owner id equals the principal's id. -/
theorem can_access_data_item_spec (db : Db) (item_id : Int) (uid : Int) (utype : String) :
    (utype = "admin" → can_access_data_item db item_id uid utype = true)
    ∧ (utype ≠ "admin" → ∀ it, get_data_item db item_id = some it →
        (can_access_data_item db item_id uid utype = true ↔ it.user_id = uid)) := by
  constructor
  · intro h
    simp [can_access_data_item, h]
  · intro h it hit
    have hne : (utype == "admin") = false := by
      simp [h]
    simp [can_access_data_item, hne, hit]

/-- C1 witness: concrete instances of both branches of
`can_access_data_item_spec`. -/
theorem can_access_data_item_spec_witness :
    can_access_data_item ⟨[], [⟨5, "t", "c", 7⟩]⟩ 5 99 "admin" = true
    ∧ (can_access_data_item ⟨[], [⟨5, "t", "c", 7⟩]⟩ 5 7 "user" = true ↔ (7 : Int) = 7) := by
  refine ⟨(can_access_data_item_spec ⟨[], [⟨5, "t", "c", 7⟩]⟩ 5 99 "admin").1 rfl, ?_⟩
  exact (can_access_data_item_spec ⟨[], [⟨5, "t", "c", 7⟩]⟩ 5 7 "user").2 (by decide) ⟨5, "t", "c", 7⟩ rfl

/-- C4: verifying immediately after issuance succeeds and returns the
embedded principal id and role, for every principal, every nonnegative
ttl and every configuration. -/
theorem create_then_verify_roundtrip (st : Settings) (now ttl : Int)
    (username : String) (uid : Int) (utype : String) (h : 0 ≤ ttl) :
    verify_token st now
        (.jwt (create_access_token st now ⟨some username, some uid, some utype⟩ (some ttl)))
      = some ⟨some username, some uid, some utype⟩ := by
  rcases eq_or_ne ttl 0 with h0 | h0
  · have hexp : ¬ (now + (900 : Int) < now) := by omega
    subst h0
    simp [verify_token, create_access_token, jwtEncode, jwtDecode, hexp]
  · have hexp : ¬ (now + ttl < now) := by omega
    simp [verify_token, create_access_token, jwtEncode, jwtDecode, h0, hexp]

/-- C4 witness: a concrete round trip. -/
theorem create_then_verify_roundtrip_witness :
    verify_token defaultSettings 1000
        (.jwt (create_access_token defaultSettings 1000 ⟨some "alice", some 1, some "user"⟩ (some 1800)))
      = some ⟨some "alice", some 1, some "user"⟩ :=
  create_then_verify_roundtrip defaultSettings 1000 1800 "alice" 1 "user" (by decide)

/-- C7: `verify_token` is total (a rejection is the value `none`, never an
exception); it returns claims exactly when the input parses as a JWT whose
algorithm is the configured one, whose signature re-derives, whose expiry
is not in the past and which carries a `sub` claim; and any token issued
with a nonzero ttl is rejected at every instant strictly after
`issued_at + ttl`. -/
theorem verify_token_checks (st : Settings) (now : Int) (tok : TokenString) :
    (∀ td, verify_token st now tok = some td ↔
      ∃ t u, tok = .jwt t
        ∧ t.alg ∈ [st.ALGORITHM]
        ∧ t.sig = hmacSig st.SECRET_KEY t.alg t.payload
        ∧ ¬ t.payload.exp < now
        ∧ t.payload.sub = some u
        ∧ td = ⟨some u, t.payload.user_id, t.payload.user_type⟩)
    ∧ (∀ (data : TokenClaimsIn) (issued ttl eps : Int), ttl ≠ 0 → 0 < eps →
        verify_token st (issued + ttl + eps)
          (.jwt (create_access_token st issued data (some ttl))) = none) := by
  constructor
  · intro td
    constructor
    · intro hv
      cases tok with
      | garbage s => exact absurd hv (by simp [verify_token])
      | jwt t =>
        simp only [verify_token] at hv
        split at hv
        · exact absurd hv (by simp)
        · rename_i payload hdec
          split at hv
          · exact absurd hv (by simp)
          · rename_i username hsub
            obtain ⟨halg, hsig, hexp, hp⟩ :=
              (jwtDecode_eq_some st.SECRET_KEY [st.ALGORITHM] now t payload).mp hdec
            subst hp
            exact ⟨t, username, rfl, halg, hsig, hexp, hsub, (Option.some_inj.mp hv).symm⟩
    · rintro ⟨t', u, rfl, halg, hsig, hexp, hsub, rfl⟩
      simp only [verify_token]
      rw [(jwtDecode_eq_some st.SECRET_KEY [st.ALGORITHM] now t' t'.payload).mpr
        ⟨halg, hsig, hexp, rfl⟩]
      show (match t'.payload.sub with
        | none => none
        | some username =>
            some (⟨some username, t'.payload.user_id, t'.payload.user_type⟩ : TokenData)) =
        some ⟨some u, t'.payload.user_id, t'.payload.user_type⟩
      rw [hsub]
  · intro data issued ttl eps httl heps
    have hexp : issued + ttl < issued + ttl + eps := by omega
    simp [verify_token, create_access_token, jwtEncode, jwtDecode, httl, hexp]

/-- C7 witness: a token issued at 1000 with ttl 60 verifies to `none` at
instant 1061, via the expiry half, and a concrete rejected garbage string
instantiates the characterization half. -/
theorem verify_token_checks_witness :
    verify_token defaultSettings 1061
        (.jwt (create_access_token defaultSettings 1000 ⟨some "alice", some 1, some "user"⟩ (some 60)))
      = none
    ∧ ¬ verify_token defaultSettings 0 (.garbage "not-a-jwt") = some ⟨some "alice", none, none⟩ := by
  constructor
  · exact (verify_token_checks defaultSettings 1061
      (.jwt (create_access_token defaultSettings 1000 ⟨some "alice", some 1, some "user"⟩ (some 60)))).2
      ⟨some "alice", some 1, some "user"⟩ 1000 60 1 (by decide) (by decide)
  · intro hv
    obtain ⟨t, u, heq, -⟩ := ((verify_token_checks defaultSettings 0 (.garbage "not-a-jwt")).1
      ⟨some "alice", none, none⟩).mp hv
    exact absurd heq (by simp)

/-- C2 counterexample: a token that verifies but resolves to an inactive
principal is rejected with status 400, not 401 — the pipeline does not
reject every unresolved principal with 401. -/
theorem inactive_user_rejected_400 :
    get_current_active_user defaultSettings
        ⟨[⟨1, "bob", "bob@example.com", "x", false, "user"⟩], []⟩ 1000
        (.jwt (create_access_token defaultSettings 1000 ⟨some "bob", some 1, some "user"⟩ none))
      = .error (.httpException 400 "Inactive user")
    ∧ (400 : Int) ≠ 401 := by
  constructor
  · decide
  · decide

/-- C2 amended: when a verified token's principal fails to resolve to an
active principal, the request is rejected with 401 if the principal is
missing from the store, but with 400 (not 401) if the principal exists
and is inactive. -/
theorem active_user_missing_or_inactive (st : Settings) (db : Db) (now : Int)
    (cred : TokenString) (td : TokenData) (un : String)
    (hv : verify_token st now cred = some td) (hun : td.username = some un) :
    (get_user_by_username db un = none →
      get_current_active_user st db now cred
        = .error (.httpException 401 "Could not validate credentials"))
    ∧ (∀ u, get_user_by_username db un = some u → u.is_active = false →
      get_current_active_user st db now cred = .error (.httpException 400 "Inactive user")) := by
  constructor
  · intro hnone
    simp [get_current_active_user, get_current_user, hv, hun, hnone]
  · intro u hsome hinact
    simp [get_current_active_user, get_current_user, hv, hun, hsome, hinact]

/-- C2 amended witness: a verifying token whose subject matches no row is
rejected with 401. -/
theorem active_user_missing_or_inactive_witness :
    get_current_active_user defaultSettings ⟨[], []⟩ 1000
        (.jwt (create_access_token defaultSettings 1000 ⟨some "carol", some 7, some "user"⟩ none))
      = .error (.httpException 401 "Could not validate credentials") :=
  (active_user_missing_or_inactive defaultSettings ⟨[], []⟩ 1000
      (.jwt (create_access_token defaultSettings 1000 ⟨some "carol", some 7, some "user"⟩ none))
      ⟨some "carol", some 7, some "user"⟩ "carol" (by decide) rfl).1 (by decide)

/-- C5: under the default configuration, every successful login reports
`expires_in = 1800` seconds while the issued token's `exp` claim is
`now + 900` (the 15-minute primitive default, since `login` passes no
`expires_delta`): the reported lifetime differs from the actual one. -/
theorem login_expires_in_mismatch (db : Db) (now : Int) (username password : String)
    (resp : LoginResponse) (h : login defaultSettings db now username password = .ok resp) :
    resp.expires_in = 1800
    ∧ resp.access_token.payload.exp = now + 900
    ∧ resp.access_token.payload.exp - now ≠ resp.expires_in := by
  simp only [login] at h
  split at h
  · exact absurd h (by simp)
  · exact absurd h (by simp)
  · rename_i user huser
    split at h
    · exact absurd h (by simp)
    · injection h with h'
      subst h'
      refine ⟨?_, ?_, ?_⟩
      · show defaultSettings.ACCESS_TOKEN_EXPIRE_MINUTES * 60 = 1800
        decide
      · show now + 15 * 60 = now + 900
        omega
      · show now + 15 * 60 - now ≠ (30 : Int) * 60
        omega

/-- C5 witness: the concrete successful login on `exLoginDb`. -/
theorem login_expires_in_mismatch_witness :
    exLoginResp.expires_in = 1800
    ∧ exLoginResp.access_token.payload.exp = 1000 + 900
    ∧ exLoginResp.access_token.payload.exp - 1000 ≠ exLoginResp.expires_in :=
  login_expires_in_mismatch exLoginDb 1000 "dave" "Password1" exLoginResp (by decide)

/-- C6 counterexample: on a stored hash string that is not a recognizable
bcrypt hash, `verify_password` raises `UnknownHashError` — it neither
returns `false` nor any other boolean. -/
theorem verify_password_raises_on_malformed :
    verify_password "password123" "not-a-bcrypt-hash" = .error "UnknownHashError"
    ∧ ∀ b : Bool, verify_password "password123" "not-a-bcrypt-hash" ≠ .ok b := by
  refine ⟨by decide, ?_⟩
  intro b h
  rw [show verify_password "password123" "not-a-bcrypt-hash" = .error "UnknownHashError"
    by decide] at h
  exact Except.noConfusion h

/-- C6 amended: `verify_password` returns a boolean on every stored
string the bcrypt scheme recognizes, and raises `UnknownHashError`
(rather than returning `false`) on every string it does not. -/
theorem verify_password_branches (plain hashed : String) :
    (bcryptRecognize hashed = true →
      verify_password plain hashed = .ok (bcryptCheck plain hashed))
    ∧ (bcryptRecognize hashed = false →
      verify_password plain hashed = .error "UnknownHashError") := by
  constructor <;> intro h <;> simp [verify_password, pwd_context_verify, h]

/-- C6 amended witness: both branches at concrete strings. -/
theorem verify_password_branches_witness :
    verify_password "pw" "$2b$12$0$123" = .ok (bcryptCheck "pw" "$2b$12$0$123")
    ∧ verify_password "pw" "zzz" = .error "UnknownHashError" :=
  ⟨(verify_password_branches "pw" "$2b$12$0$123").1 (by decide),
   (verify_password_branches "pw" "zzz").2 (by decide)⟩

/-- C8: for an authenticated active principal, `require_admin` succeeds
iff the principal's role is admin; a non-admin is rejected with status
403, which is distinct from the authentication-failure status 401. -/
theorem require_admin_spec (st : Settings) (db : Db) (now : Int) (cred : TokenString) (u : User)
    (hu : get_current_active_user st db now cred = .ok u) :
    (require_admin st db now cred = .ok u ↔ u.user_type = "admin")
    ∧ (u.user_type ≠ "admin" →
      require_admin st db now cred
        = .error (.httpException 403 "Permissão negada, acesso restrito a administradores")
      ∧ (403 : Int) ≠ 401) := by
  constructor
  · constructor
    · intro h
      by_contra hne
      rw [show require_admin st db now cred
          = .error (.httpException 403 "Permissão negada, acesso restrito a administradores")
        by simp [require_admin, hu, hne]] at h
      exact Except.noConfusion h
    · intro h
      simp [require_admin, hu, h]
  · intro hne
    exact ⟨by simp [require_admin, hu, hne], by decide⟩

/-- C8 witness: a concrete active admin passes `require_admin`. -/
theorem require_admin_spec_witness :
    require_admin defaultSettings ⟨[⟨1, "alice", "alice@example.com", "h", true, "admin"⟩], []⟩ 1000
        (.jwt (create_access_token defaultSettings 1000 ⟨some "alice", some 1, some "admin"⟩ none))
      = .ok ⟨1, "alice", "alice@example.com", "h", true, "admin"⟩ :=
  (require_admin_spec defaultSettings ⟨[⟨1, "alice", "alice@example.com", "h", true, "admin"⟩], []⟩
      1000 (.jwt (create_access_token defaultSettings 1000 ⟨some "alice", some 1, some "admin"⟩ none))
      ⟨1, "alice", "alice@example.com", "h", true, "admin"⟩ (by decide)).1.mpr rfl

/-- Pruning keeps a window whose entries are all under 60 seconds old. -/
theorem pruneWindow_eq_self (now : ℚ) (ts : List ℚ) (h : ∀ t ∈ ts, now - t < 60) :
    pruneWindow now ts = ts :=
  List.filter_eq_self.mpr (fun t ht => decide_eq_true (h t ht))

/-- A run of requests all inside the window of their common lower bound
`t0`, short enough to stay under the limit, is fully accepted and appends
each instant in order. -/
theorem runRequests_accepts (limit : Nat) (t0 : ℚ) (times : List ℚ) (prev : List ℚ)
    (hprev : ∀ t ∈ prev, t0 ≤ t)
    (htimes : ∀ t ∈ times, t0 ≤ t ∧ t < t0 + 60)
    (hlen : prev.length + times.length ≤ limit) :
    runRequests limit times prev = (List.replicate times.length true, prev ++ times) := by
  induction times generalizing prev with
  | nil => simp [runRequests]
  | cons t rest ih =>
    have hkeep : pruneWindow t prev = prev := by
      refine pruneWindow_eq_self t prev (fun p hp => ?_)
      have h1 := hprev p hp
      have h2 := (htimes t (by simp)).2
      linarith
    have hlt : prev.length < limit := by
      simp only [List.length_cons] at hlen
      omega
    have hd : rateDispatch limit t prev = (true, prev ++ [t]) := by
      simp only [rateDispatch, hkeep]
      rw [if_neg (by omega)]
    have hrec := ih (prev ++ [t])
      (by
        intro x hx
        rcases List.mem_append.mp hx with hx' | hx'
        · exact hprev x hx'
        · simp only [List.mem_singleton] at hx'
          exact hx' ▸ (htimes t (by simp)).1)
      (fun x hx => htimes x (List.mem_cons_of_mem t hx))
      (by
        have happ : (prev ++ [t]).length = prev.length + 1 := by simp
        simp only [List.length_cons] at hlen
        omega)
    simp [runRequests, hd, hrec, List.replicate_succ]

/-- C3: with any limit `L`, `L` requests lying within the 60-second
window opened by their earliest instant `t0` are all accepted and all
recorded; one more request inside that window is rejected and leaves the
stored window unchanged (it is not recorded); and a request arriving more
than 60 seconds after `t0` is accepted again. -/
theorem rate_limiter_window (limit : Nat) (times : List ℚ) (t0 t' t'' : ℚ)
    (hlen : times.length = limit)
    (hmem : t0 ∈ times)
    (hlo : ∀ t ∈ times, t0 ≤ t)
    (hhi : ∀ t ∈ times, t < t0 + 60)
    (ht' : t' < t0 + 60)
    (ht'' : t0 + 60 < t'') :
    runRequests limit times [] = (List.replicate limit true, times)
    ∧ rateDispatch limit t' times = (false, times)
    ∧ (rateDispatch limit t'' times).1 = true := by
  refine ⟨?_, ?_, ?_⟩
  · have := runRequests_accepts limit t0 times []
      (by intro t ht; simp at ht)
      (fun t ht => ⟨hlo t ht, hhi t ht⟩)
      (by simp [hlen])
    simpa [hlen] using this
  · have hkeep : pruneWindow t' times = times := by
      refine pruneWindow_eq_self t' times (fun p hp => ?_)
      have := hlo p hp
      linarith
    simp only [rateDispatch, hkeep]
    rw [if_pos (by omega)]
  · have hdrop : (pruneWindow t'' times).length < times.length := by
      refine List.length_filter_lt_length_iff_exists.mpr ⟨t0, hmem, ?_⟩
      simp only [decide_eq_true_eq]
      intro hc
      linarith
    simp only [rateDispatch]
    rw [if_neg (by omega)]

/-- C3 witness: limit 3, three requests at instants 0, 10, 20; a fourth
at 30 is rejected and not recorded; one at 61 is accepted. -/
theorem rate_limiter_window_witness :
    runRequests 3 [0, 10, 20] [] = (List.replicate 3 true, [0, 10, 20])
    ∧ rateDispatch 3 30 [0, 10, 20] = (false, [0, 10, 20])
    ∧ (rateDispatch 3 61 [0, 10, 20]).1 = true :=
  rate_limiter_window 3 [0, 10, 20] 0 30 61 (by decide) (by decide) (by decide)
    (fun t ht => (zero_add (60 : ℚ)).symm ▸ (by decide : ∀ t ∈ [(0 : ℚ), 10, 20], t < 60) t ht)
    ((zero_add (60 : ℚ)).symm ▸ (by decide : (30 : ℚ) < 60))
    ((zero_add (60 : ℚ)).symm ▸ (by decide : (60 : ℚ) < 61))

/-- C9 counterexample: a request that passes the rate check but is then
rejected as unauthenticated (status 401) has nonetheless mutated state:
its timestamp is appended to the client's rate window. -/
theorem rejected_request_still_recorded :
    pipelineStep defaultSettings 60 ⟨[], []⟩ 0 0 [] (.garbage "bad") = (401, [0])
    ∧ ([0] : List ℚ) ≠ [] := by
  constructor
  · decide
  · decide

/-- C9 amended: the rate window is the pipeline's only mutable state and
a timestamp is appended exactly when the rate check accepts, regardless
of the downstream decision; a rate-limited rejection appends nothing —
the stored window is merely pruned, which no later call can observe. -/
theorem rate_window_mutation (st : Settings) (limit : Nat) (db : Db) (nowR : ℚ) (nowT : Int)
    (ts : List ℚ) (cred : TokenString) :
    (pipelineStep st limit db nowR nowT ts cred).2 = (rateDispatch limit nowR ts).2
    ∧ ((rateDispatch limit nowR ts).2 = pruneWindow nowR ts ++ [nowR]
        ↔ (pruneWindow nowR ts).length < limit)
    ∧ ((rateDispatch limit nowR ts).1 = false →
        (pipelineStep st limit db nowR nowT ts cred).1 = 429
        ∧ (rateDispatch limit nowR ts).2 = pruneWindow nowR ts
        ∧ ∀ later : ℚ, nowR ≤ later →
            pruneWindow later (pruneWindow nowR ts) = pruneWindow later ts) := by
  refine ⟨?_, ?_, ?_⟩
  · simp only [pipelineStep]
    split
    · rfl
    · split <;> rfl
  · simp only [rateDispatch]
    split
    · constructor
      · intro h
        exact absurd (congrArg List.length h) (by simp)
      · omega
    · simp
      omega
  · intro hrej
    have hge : limit ≤ (pruneWindow nowR ts).length := by
      by_contra hc
      simp only [rateDispatch] at hrej
      rw [if_neg hc] at hrej
      exact Bool.noConfusion hrej
    refine ⟨?_, ?_, ?_⟩
    · simp only [pipelineStep, rateDispatch]
      rw [if_pos hge]
      rfl
    · simp only [rateDispatch]
      rw [if_pos hge]
    · intro later hlater
      simp only [pruneWindow, List.filter_filter]
      refine List.filter_congr (fun x hx => ?_)
      rcases lt_or_le (nowR - x) 60 with h | h
      · simp [h, lt_of_le_of_lt (by linarith : later - x ≤ later - x) ]
      · have : ¬ later - x < 60 := by linarith
        simp [h, this]

/-- C9 amended witness: a concrete rate-limited rejection (limit 0)
appends nothing and the pruned window is invisible later. -/
theorem rate_window_mutation_witness :
    (pipelineStep defaultSettings 0 ⟨[], []⟩ 5 0 [] (.garbage "g")).1 = 429
    ∧ (rateDispatch 0 5 ([] : List ℚ)).2 = pruneWindow 5 []
    ∧ ∀ later : ℚ, (5 : ℚ) ≤ later →
        pruneWindow later (pruneWindow 5 []) = pruneWindow later [] :=
  (rate_window_mutation defaultSettings 0 ⟨[], []⟩ 5 0 [] (.garbage "g")).2.2 (by decide)

/-- An ASCII uppercase letter changes under `Char.toLower`. -/
theorem toLower_ne_of_isUpper (c : Char) (h : c.isUpper = true) : Char.toLower c ≠ c := by
  have hb : (65 : UInt32) ≤ c.val ∧ c.val ≤ (90 : UInt32) := by
    simpa [Char.isUpper, Bool.and_eq_true, decide_eq_true_eq] using h
  have hn1 : 65 ≤ c.toNat := by
    have := hb.1
    simp only [UInt32.le_def, BitVec.le_def] at this
    exact this
  have hn2 : c.toNat ≤ 90 := by
    have := hb.2
    simp only [UInt32.le_def, BitVec.le_def] at this
    exact this
  have hcond : Char.toLower c = Char.ofNat (c.toNat + 32) := by
    unfold Char.toLower
    rw [if_pos ⟨hn1, hn2⟩]
  have hv : (c.toNat + 32).isValidChar := Or.inl (by omega)
  have htn : (Char.ofNat (c.toNat + 32)).toNat = c.toNat + 32 := by
    rw [Char.ofNat, dif_pos hv]
    simp [Char.ofNatAux, Char.toNat, UInt32.toNat]
  intro he
  rw [hcond] at he
  have := congrArg Char.toNat he
  rw [htn] at this
  omega

/-- A character list containing an ASCII uppercase letter is changed by
lowercasing. -/
theorem map_toLower_ne (l : List Char) (c : Char) (hc : c ∈ l) (hu : c.isUpper = true) :
    l.map Char.toLower ≠ l := by
  induction l with
  | nil => cases hc
  | cons a l ih =>
    intro he
    injection he with h1 h2
    rcases List.mem_cons.mp hc with rfl | hmem
    · exact toLower_ne_of_isUpper c hu h1
    · exact ih hmem h2

/-- A string containing an ASCII uppercase letter is changed by Python
lowercasing. -/
theorem pyLower_ne (s : String) (c : Char) (hc : c ∈ s.data) (hu : c.isUpper = true) :
    pyLower s ≠ s := by
  intro he
  exact map_toLower_ne s.data c hc hu (congrArg String.data he)

/-- A model bcrypt hash always carries the recognized scheme tag. -/
theorem bcryptRecognize_hash (salt : Nat) (pw : String) :
    bcryptRecognize (bcryptHash salt pw) = true := rfl

/-- Inversion of pydantic parsing: the model's username is the lowercased
raw username and the password is passed through. -/
theorem parseUserCreate_ok (raw : RawUserCreate) (u : UserCreate)
    (h : parseUserCreate raw = .ok u) :
    u.username = pyLower raw.username ∧ u.password = raw.password := by
  simp only [parseUserCreate] at h
  split at h
  · exact absurd h (by simp)
  split at h
  · exact absurd h (by simp)
  split at h
  · exact absurd h (by simp)
  split at h
  case _ un ut pw h1 h2 h3 =>
    simp only [validate_username] at h1
    split at h1
    case _ =>
      injection h1 with h1'
      simp only [validate_password] at h3
      split at h3
      · exact absurd h3 (by simp)
      split at h3
      · exact absurd h3 (by simp)
      split at h3
      · exact absurd h3 (by simp)
      split at h3
      · exact absurd h3 (by simp)
      injection h3 with h3'
      injection h with h'
      subst h'
      exact ⟨h1'.symm, h3'.symm⟩
    case _ => exact absurd h1 (by simp)
  case _ => exact absurd h (by simp)
  case _ => exact absurd h (by simp)
  case _ => exact absurd h (by simp)

/-- C10: registering stores the lowercased username; a later login that
submits the original username verbatim (carrying an uppercase letter)
fails with the 401 authentication failure even with the correct password,
while login with the lowercased form succeeds.  `hnorm` states the store
invariant that every username already present is case-normalized, which
holds for every store populated through the API. -/
theorem register_lowercases_login_verbatim (st : Settings) (db db' : Db) (newId : Int)
    (salt : Fin saltCount) (raw : RawUserCreate) (stored : User) (now : Int) (c : Char)
    (hreg : register db newId salt raw = .ok (db', stored))
    (hc : c ∈ raw.username.data) (hu : c.isUpper = true)
    (hnorm : ∀ w ∈ db.users, pyLower w.username = w.username) :
    stored.username = pyLower raw.username
    ∧ login st db' now raw.username raw.password
        = .error (.httpException 401 "Username ou senha incorretos")
    ∧ ∃ resp, login st db' now (pyLower raw.username) raw.password = .ok resp := by
  simp only [register] at hreg
  split at hreg
  · exact absurd hreg (by simp)
  rename_i user hparse
  split at hreg
  · exact absurd hreg (by simp)
  rename_i hfound
  simp only [create_user] at hreg
  split at hreg
  · exact absurd hreg (by simp)
  rename_i hnodup
  injection hreg with hpair
  injection hpair with hdb hst
  subst hdb
  subst hst
  obtain ⟨hun, hpw⟩ := parseUserCreate_ok raw user hparse
  have hne : pyLower raw.username ≠ raw.username := pyLower_ne raw.username c hc hu
  simp only [get_user_by_username] at hfound
  refine ⟨hun, ?_, ?_⟩
  · have hlookup : get_user_by_username
        ⟨db.users ++ [newUserRow newId salt user], db.items⟩ raw.username = none := by
      simp only [get_user_by_username, List.find?_append]
      have h1 : db.users.find? (fun u => u.username == raw.username) = none := by
        rw [List.find?_eq_none]
        intro x hx hbeq
        have hxeq : x.username = raw.username := by simpa using hbeq
        exact hne (hxeq ▸ (hxeq ▸ hnorm x hx))
      have h2 : [newUserRow newId salt user].find?
          (fun u => u.username == raw.username) = none := by
        rw [List.find?_eq_none]
        intro x hx hbeq
        simp only [List.mem_singleton] at hx
        subst hx
        have hx2 : user.username = raw.username := by simpa [newUserRow] using hbeq
        exact hne (hun ▸ hx2)
      rw [h1, h2]
      rfl
    simp [login, authenticate_user, hlookup]
  · have hfind : get_user_by_username
        ⟨db.users ++ [newUserRow newId salt user], db.items⟩ (pyLower raw.username)
        = some (newUserRow newId salt user) := by
      simp only [get_user_by_username, List.find?_append]
      have h1 : db.users.find? (fun u => u.username == pyLower raw.username) = none := by
        rw [hun] at hfound
        exact hfound
      have h2 : [newUserRow newId salt user].find?
          (fun u => u.username == pyLower raw.username) = some (newUserRow newId salt user) := by
        apply List.find?_cons_of_pos
        simp [newUserRow, hun]
      rw [h1, h2]
      rfl
    have hverify : verify_password raw.password (newUserRow newId salt user).hashed_password
        = .ok true := by
      show verify_password raw.password (bcryptHash salt.val user.password) = .ok true
      rw [hpw]
      simp only [verify_password, pwd_context_verify]
      rw [if_pos (bcryptRecognize_hash salt.val raw.password)]
      rw [show bcryptCheck raw.password (bcryptHash salt.val raw.password) = true from
        decide_eq_true ⟨salt, rfl⟩]
    have hauth : authenticate_user ⟨db.users ++ [newUserRow newId salt user], db.items⟩
        (pyLower raw.username) raw.password = .ok (some (newUserRow newId salt user)) := by
      simp only [authenticate_user]
      rw [hfind]
      show (match verify_password raw.password (newUserRow newId salt user).hashed_password with
        | Except.error e => Except.error e
        | Except.ok b =>
            if b then Except.ok (some (newUserRow newId salt user)) else Except.ok none)
        = Except.ok (some (newUserRow newId salt user))
      rw [hverify]
      rfl
    refine ⟨⟨create_access_token st now
      ⟨some user.username, some newId, some user.user_type⟩ none, "bearer",
      st.ACCESS_TOKEN_EXPIRE_MINUTES * 60⟩, ?_⟩
    simp only [login]
    rw [hauth]
    rfl

/-- C10 witness: registering "Alice" stores "alice"; login as "Alice"
fails 401, login as "alice" succeeds. -/
theorem register_lowercases_login_verbatim_witness :
    (⟨1, "alice", "alice@example.com", get_password_hash 0 "Password1", true, "user"⟩ :
        User).username = pyLower "Alice"
    ∧ login defaultSettings
        ⟨[⟨1, "alice", "alice@example.com", get_password_hash 0 "Password1", true, "user"⟩], []⟩
        1000 "Alice" "Password1"
        = .error (.httpException 401 "Username ou senha incorretos")
    ∧ ∃ resp, login defaultSettings
        ⟨[⟨1, "alice", "alice@example.com", get_password_hash 0 "Password1", true, "user"⟩], []⟩
        1000 (pyLower "Alice") "Password1" = .ok resp :=
  register_lowercases_login_verbatim defaultSettings ⟨[], []⟩
    ⟨[⟨1, "alice", "alice@example.com", get_password_hash 0 "Password1", true, "user"⟩], []⟩
    1 0 ⟨"Alice", "alice@example.com", "user", "Password1"⟩
    ⟨1, "alice", "alice@example.com", get_password_hash 0 "Password1", true, "user"⟩
    1000 'A' (by decide) (by decide) (by decide) (by simp)

end SecureApi
